import Mathlib

/-!
Verification development for the Octanify conversion core.

Shallow embedding of the analysis, scheduling, socket-resolution,
property-transfer and post-processing routines of the repository
(src/octanify/core and src/octanify/utils), together with theorems
settling the functional claims about them.

Python floats are modelled as rationals, socket values as the inductive
type Val, bpy node/socket collections as lists looked up by name, and
the module-level mutation of the Python code as explicit state passing.
-/

/-- Runtime value carried by a socket default or a node attribute.
Numbers (Python int/float) are rationals; colors are RGBA quadruples;
vectors are triples. -/
inductive Val where
  | num (x : ℚ)
  | color (r g b a : ℚ)
  | vec (x y z : ℚ)
  | str (s : String)
  | boolean (b : Bool)
deriving Repr, DecidableEq

/-- A socket of a source (Cycles) node: display name, unique identifier,
and captured default value (none models a socket without a
default_value attribute). -/
structure SSocket where
  name : String
  identifier : String
  default_value : Option Val
deriving Repr, DecidableEq

/-- A link of the source tree, with endpoints given by node name and
socket display name / identifier (bpy links hold references; the
embedding resolves them by name). -/
structure SLink where
  from_node : String
  from_socket : String
  from_socket_id : String
  to_node : String
  to_socket : String
  to_socket_id : String
deriving Repr, DecidableEq

/-- A source (Cycles) node: identity, type tag, label, placement, the
socket collections, and the bag of auxiliary attributes read by
_snapshot_properties (getattr is modelled as association-list lookup). -/
structure SNode where
  name : String
  bl_idname : String
  label : String
  location : ℚ × ℚ
  inputs : List SSocket
  outputs : List SSocket
  attrs : List (String × Val)
deriving Repr, DecidableEq

/-- A source node tree: the node collection and the link collection. -/
structure SourceTree where
  nodes : List SNode
  links : List SLink
deriving Repr, DecidableEq

/-- NodeInfo of shader_detection.py: snapshot of a single source node.
inputs and outputs are keyed by socket identifier; the identifier maps
give identifier to display name. -/
structure NodeInfo where
  name : String
  bl_idname : String
  label : String
  location : ℚ × ℚ
  inputs : List (String × Option Val) := []
  outputs : List (String × Option Val) := []
  properties : List (String × Val) := []
  input_identifiers : List (String × String) := []
  output_identifiers : List (String × String) := []
deriving Repr, DecidableEq

/-- LinkInfo of shader_detection.py: snapshot of a single flattened link. -/
structure LinkInfo where
  from_node : String
  from_socket : String
  to_node : String
  to_socket : String
  from_socket_identifier : String := ""
  to_socket_identifier : String := ""
  to_socket_index : Int := -1
deriving Repr, DecidableEq

/-- TreeAnalysis of shader_detection.py: nodes (the Python dict keyed by
node name, kept here in insertion order), flattened links, pattern
flags and the recorded transmission weight. -/
structure TreeAnalysis where
  nodes : List NodeInfo := []
  links : List LinkInfo := []
  has_glass : Bool := false
  has_emission : Bool := false
  has_volume : Bool := false
  has_alpha : Bool := false
  has_bump : Bool := false
  has_normal_map : Bool := false
  has_sss : Bool := false
  has_displacement : Bool := false
  transmission_weight : ℚ := 0
deriving Repr, DecidableEq

/-- Lookup of a socket by display name in a bpy socket collection
(collection.get returns the first socket with that name). -/
def firstSocketNamed (sockets : List SSocket) (nm : String) : Option SSocket :=
  sockets.find? (fun s => s.name == nm)

/-- Association-list lookup used for Python dict.get and getattr. -/
def assocLookup (l : List (String × Val)) (key : String) : Option Val :=
  match l.find? (fun p => p.1 == key) with
  | some p => some p.2
  | none => none

/-- Lookup of a node by name in a source tree. -/
def findSourceNode (t : SourceTree) (nm : String) : Option SNode :=
  t.nodes.find? (fun n => n.name == nm)

/-- The transparent (pass-through) node types of shader_detection.py. -/
def TRANSPARENT_TYPES : List String :=
  ["ShaderNodeSeparateColor", "ShaderNodeSeparateRGB", "ShaderNodeSeparateXYZ",
   "ShaderNodeCombineColor", "ShaderNodeCombineRGB", "ShaderNodeCombineXYZ",
   "ShaderNodeNewGeometry", "ShaderNodeLightPath"]

/-- Links of the tree arriving at a given socket (bpy socket.links,
input side). -/
def linksIntoSocket (t : SourceTree) (nodeName : String) (sockId : String) : List SLink :=
  t.links.filter (fun l => l.to_node == nodeName && l.to_socket_id == sockId)

/-- Links of the tree leaving a given socket (bpy socket.links, output
side). -/
def linksFromSocket (t : SourceTree) (nodeName : String) (sockId : String) : List SLink :=
  t.links.filter (fun l => l.from_node == nodeName && l.from_socket_id == sockId)

/-- The post-loop returns of trace_reroute_output: the current node with
its first output socket, or no socket when it has none. -/
def rerouteFallback (current : SNode) : SNode × Option (String × String) :=
  match current.outputs.head? with
  | some o => (current, some (o.name, o.identifier))
  | none => (current, none)

/-- The post-loop returns of trace_reroute_input: the current node with
its first input socket, or no socket when it has none. -/
def rerouteFallbackIn (current : SNode) : SNode × Option (String × String) :=
  match current.inputs.head? with
  | some i => (current, some (i.name, i.identifier))
  | none => (current, none)

/-- trace_reroute_output of shader_detection.py: follow a reroute chain
backwards to the real source node and socket.  The while loop of the
source, guarded by a growing visited set, is modelled with fuel (the
callers pass more fuel than the tree has nodes, so exhaustion is
unreachable). -/
def trace_reroute_output (t : SourceTree) : Nat → List String → SNode → SNode × Option (String × String)
  | 0, _, current => rerouteFallback current
  | fuel+1, visited, current =>
    if current.bl_idname == "NodeReroute" && !(visited.contains current.name) then
      match current.inputs.head? with
      | some inp =>
        match (linksIntoSocket t current.name inp.identifier).head? with
        | some link =>
          match findSourceNode t link.from_node with
          | some nxt =>
            if nxt.bl_idname != "NodeReroute" then (nxt, some (link.from_socket, link.from_socket_id))
            else trace_reroute_output t fuel (current.name :: visited) nxt
          | none => rerouteFallback current
        | none => rerouteFallback current
      | none => rerouteFallback current
    else rerouteFallback current

/-- trace_reroute_input of shader_detection.py: follow a reroute chain
forwards to the real destination node and socket. -/
def trace_reroute_input (t : SourceTree) : Nat → List String → SNode → SNode × Option (String × String)
  | 0, _, current => rerouteFallbackIn current
  | fuel+1, visited, current =>
    if current.bl_idname == "NodeReroute" && !(visited.contains current.name) then
      match current.outputs.head? with
      | some out =>
        match (linksFromSocket t current.name out.identifier).head? with
        | some link =>
          match findSourceNode t link.to_node with
          | some nxt =>
            if nxt.bl_idname != "NodeReroute" then (nxt, some (link.to_socket, link.to_socket_id))
            else trace_reroute_input t fuel (current.name :: visited) nxt
          | none => rerouteFallbackIn current
        | none => rerouteFallbackIn current
      | none => rerouteFallbackIn current
    else rerouteFallbackIn current

/-- The first connected input of a node, with its incoming link. -/
def firstConnectedInput (t : SourceTree) (node : SNode) : Option SLink :=
  node.inputs.findSome? (fun inp => (linksIntoSocket t node.name inp.identifier).head?)

/-- trace_transparent_source of shader_detection.py: trace backward
through a transparent node to the real source, recursing through
chained transparents (fuel models the unguarded recursion of the
source). -/
def trace_transparent_source (t : SourceTree) : Nat → SNode → Option (SNode × Option (String × String))
  | 0, _ => none
  | fuel+1, node =>
    match firstConnectedInput t node with
    | none => none
    | some link =>
      match findSourceNode t link.from_node with
      | none => none
      | some src =>
        if src.bl_idname == "NodeReroute" then
          some (trace_reroute_output t (fuel+1) [] src)
        else if TRANSPARENT_TYPES.contains src.bl_idname then
          trace_transparent_source t fuel src
        else
          some (src, some (link.from_socket, link.from_socket_id))

/-- get_socket_index of shader_detection.py: index of a socket within
its collection, minus one when absent (sockets are identified by their
unique identifier). -/
def socketIndex (sockets : List SSocket) (sockId : String) : Int :=
  match sockets.findIdx? (fun s => s.identifier == sockId) with
  | some i => (i : Int)
  | none => -1

/-- The PROPERTY_KEYS table of shader_detection.py. -/
def PROPERTY_KEYS : List (String × List String) :=
  [("ShaderNodeMixRGB", ["blend_type", "use_clamp"]),
   ("ShaderNodeMix", ["blend_type", "data_type", "clamp_factor", "clamp_result", "factor_mode"]),
   ("ShaderNodeMath", ["operation", "use_clamp"]),
   ("ShaderNodeMapping", ["vector_type"]),
   ("ShaderNodeNormalMap", ["space", "uv_map"]),
   ("ShaderNodeBump", ["invert"]),
   ("ShaderNodeTexImage", ["interpolation", "projection", "extension"]),
   ("ShaderNodeTexNoise", ["noise_dimensions"]),
   ("ShaderNodeTexVoronoi", ["voronoi_dimensions", "feature", "distance"]),
   ("ShaderNodeTexWave", ["wave_type", "wave_profile", "bands_direction", "rings_direction"]),
   ("ShaderNodeTexMusgrave", ["musgrave_dimensions", "musgrave_type"]),
   ("ShaderNodeTexGradient", ["gradient_type"]),
   ("ShaderNodeMapRange", ["data_type", "interpolation_type", "clamp"]),
   ("ShaderNodeClamp", ["clamp_type"]),
   ("ShaderNodeValToRGB", []),
   ("ShaderNodeAttribute", ["attribute_name", "attribute_type"]),
   ("ShaderNodeUVMap", ["uv_map"]),
   ("ShaderNodeVertexColor", ["layer_name"]),
   ("ShaderNodeTexEnvironment", ["interpolation", "projection", "color_space"]),
   ("ShaderNodeTexMagic", ["turbulence_depth"]),
   ("ShaderNodeTexSky", ["sky_type", "sun_direction", "turbidity", "ground_albedo", "sun_dust", "air_density", "dust_density", "ozone_density"]),
   ("ShaderNodeTexWhiteNoise", ["noise_dimensions"]),
   ("ShaderNodeTexGabor", ["gabor_type"]),
   ("ShaderNodeVectorMath", ["operation"]),
   ("ShaderNodeGroup", ["node_tree"])]

/-- snapshot_properties of shader_detection.py: copy the configured
attribute keys of the node into the info property bag, plus the image
texture, color ramp and node group special keys (image attributes and
ramp fields are modelled as flattened attributes of the node; the
structured ramp stop list lies outside Val and is not needed by any
claim). -/
def snapshot_properties (node : SNode) : List (String × Val) :=
  let keys := ((PROPERTY_KEYS.find? (fun p => p.1 == node.bl_idname)).map Prod.snd).getD []
  let base := keys.filterMap (fun k => (assocLookup node.attrs k).map (fun v => (k, v)))
  let base := if node.bl_idname == "ShaderNodeTexImage" then
      base ++ (["image", "image_name", "filepath", "colorspace"].filterMap
        (fun k => (assocLookup node.attrs k).map (fun v => (k, v))))
    else base
  let base := if node.bl_idname == "ShaderNodeValToRGB" then
      base ++ (["interpolation", "color_mode", "stops"].filterMap
        (fun k => (assocLookup node.attrs k).map (fun v => (k, v))))
    else base
  let base := if node.bl_idname == "ShaderNodeGroup" then
      base ++ (["node_tree_name"].filterMap
        (fun k => (assocLookup node.attrs k).map (fun v => (k, v))))
    else base
  base

/-- snapshot_default of shader_detection.py: the captured default of a
socket (the Option already models a missing default_value attribute,
and tuple conversion of colors and vectors is the identity here). -/
def snapshot_default (s : SSocket) : Option Val := s.default_value

/-- Whether any of the first three color components is positive
(any c greater than 0 over tuple(em_col) sliced to three entries; a
scalar or string there would raise in Python and cannot occur for a
well-typed color socket). -/
def colorAnyPos3 (v : Val) : Bool :=
  match v with
  | Val.color r g b _ => decide (0 < r) || decide (0 < g) || decide (0 < b)
  | Val.vec x y z => decide (0 < x) || decide (0 < y) || decide (0 < z)
  | _ => false

/-- Replacement or insertion of a node snapshot in the analysis node
collection, matching the Python dict assignment keyed by node name
(existing entries keep their position). -/
def upsertNodeInfo (nodesL : List NodeInfo) (info : NodeInfo) : List NodeInfo :=
  if nodesL.any (fun n => n.name == info.name) then
    nodesL.map (fun n => if n.name == info.name then info else n)
  else nodesL ++ [info]

/-- Pattern detection of analyze_tree for a principled BSDF node
(shader_detection.py lines 312 to 335).  The source also binds the
Emission Strength socket to the local em_str here but never uses it
afterwards, so the flag depends on the emission color alone. -/
def analyzePrincipled (a : TreeAnalysis) (node : SNode) : TreeAnalysis :=
  let tw_input := match firstSocketNamed node.inputs "Transmission Weight" with
                  | some s => some s
                  | none => firstSocketNamed node.inputs "Transmission"
  let a := match tw_input with
    | some s =>
      match (s.default_value).getD (Val.num 0) with
      | Val.num q => if q > mkRat 1 2 then { a with has_glass := true, transmission_weight := q } else a
      | _ => a
    | none => a
  let a := match firstSocketNamed node.inputs "Emission Color" with
    | some s =>
      match s.default_value with
      | some c => if colorAnyPos3 c then { a with has_emission := true } else a
      | none => a
    | none => a
  let ss_input := match firstSocketNamed node.inputs "Subsurface Weight" with
                  | some s => some s
                  | none => firstSocketNamed node.inputs "Subsurface"
  let a := match ss_input with
    | some s =>
      match (s.default_value).getD (Val.num 0) with
      | Val.num q => if q > 0 then { a with has_sss := true } else a
      | _ => a
    | none => a
  a

/-- The node walk of analyze_tree (shader_detection.py lines 274 to
359): skip frames, reroutes and transparents, snapshot the node, and
update the pattern flags. -/
def analyzeNode (a : TreeAnalysis) (node : SNode) : TreeAnalysis :=
  if node.bl_idname == "NodeFrame" || node.bl_idname == "NodeReroute"
     || TRANSPARENT_TYPES.contains node.bl_idname then a
  else
    let info : NodeInfo := {
      name := node.name
      bl_idname := node.bl_idname
      label := if node.label == "" then node.name else node.label
      location := node.location
      inputs := node.inputs.map (fun s => (s.identifier, snapshot_default s))
      outputs := node.outputs.map (fun s => (s.identifier, snapshot_default s))
      properties := snapshot_properties node
      input_identifiers := node.inputs.map (fun s => (s.identifier, s.name))
      output_identifiers := node.outputs.map (fun s => (s.identifier, s.name)) }
    let a := { a with nodes := upsertNodeInfo a.nodes info }
    let bid := node.bl_idname
    let a := if bid == "ShaderNodeBsdfGlass" then { a with has_glass := true } else a
    let a := if bid == "ShaderNodeBsdfPrincipled" then analyzePrincipled a node else a
    let a := if bid == "ShaderNodeEmission" then { a with has_emission := true } else a
    let a := if bid == "ShaderNodeBlackbody" then { a with has_emission := true } else a
    let a := if bid == "ShaderNodeVolumeAbsorption" || bid == "ShaderNodeVolumeScatter"
                || bid == "ShaderNodeVolumePrincipled" then { a with has_volume := true } else a
    let a := if bid == "ShaderNodeBump" then { a with has_bump := true } else a
    let a := if bid == "ShaderNodeNormalMap" then { a with has_normal_map := true } else a
    let a := if bid == "ShaderNodeDisplacement" || bid == "ShaderNodeVectorDisplacement"
             then { a with has_displacement := true } else a
    let a := if bid == "ShaderNodeSubsurfaceScattering" then { a with has_sss := true } else a
    a

/-- The link walk of analyze_tree (shader_detection.py lines 362 to
427): flatten transparents and reroutes, drop broken chains (paths on
which the source would dereference a missing socket are dropped too),
deduplicate by endpoint identifiers, record the link snapshot, and set
the alpha flag for used image texture alpha outputs. -/
def analyzeLink (t : SourceTree) (fuel : Nat)
    (st : TreeAnalysis × List (String × String × String × String)) (link : SLink) :
    TreeAnalysis × List (String × String × String × String) :=
  let (a, seen) := st
  match findSourceNode t link.from_node, findSourceNode t link.to_node with
  | some fn0, some tn0 =>
    let fromRes : Option (SNode × Option (String × String)) :=
      if TRANSPARENT_TYPES.contains fn0.bl_idname then trace_transparent_source t fuel fn0
      else some (fn0, some (link.from_socket, link.from_socket_id))
    match fromRes with
    | none => (a, seen)
    | some (fn1, fsock1) =>
      if TRANSPARENT_TYPES.contains tn0.bl_idname then (a, seen)
      else
        let fres :=
          if fn1.bl_idname == "NodeReroute" then trace_reroute_output t fuel [] fn1
          else (fn1, fsock1)
        match fres.2 with
        | none => (a, seen)
        | some fsock =>
          let fn2 := fres.1
          let tres :=
            if tn0.bl_idname == "NodeReroute" then trace_reroute_input t fuel [] tn0
            else (tn0, some (link.to_socket, link.to_socket_id))
          match tres.2 with
          | none => (a, seen)
          | some tsock =>
            let tn2 := tres.1
            if fn2.bl_idname == "NodeReroute" || TRANSPARENT_TYPES.contains fn2.bl_idname then (a, seen)
            else if tn2.bl_idname == "NodeReroute" || TRANSPARENT_TYPES.contains tn2.bl_idname then (a, seen)
            else
              let to_sock_index := socketIndex tn2.inputs tsock.2
              let key := (fn2.name, fsock.2, tn2.name, tsock.2)
              if seen.contains key then (a, seen)
              else
                let a := { a with links := a.links ++ [{
                    from_node := fn2.name, from_socket := fsock.1,
                    to_node := tn2.name, to_socket := tsock.1,
                    from_socket_identifier := fsock.2,
                    to_socket_identifier := tsock.2,
                    to_socket_index := to_sock_index }] }
                let a := if fn2.bl_idname == "ShaderNodeTexImage" && fsock.1 == "Alpha"
                         then { a with has_alpha := true } else a
                (a, seen ++ [key])
  | _, _ => (a, seen)

/-- analyze_tree of shader_detection.py: the node walk followed by the
link walk. -/
def analyze_tree (t : SourceTree) : TreeAnalysis :=
  let fuel := t.nodes.length + 1
  let a := t.nodes.foldl analyzeNode {}
  (t.links.foldl (analyzeLink t fuel) (a, [])).1

/-- The upstream dependency set of a node, derived from the flattened
links (graph_engine.py, build_dependency_graph): for every link the
destination depends on the source.  The Python dict of sets is
deduplicated and iterated in arbitrary order; the model keeps the
link-order list, which is one admissible iteration order, and the
visited guard of the traversal makes duplicates no-ops. -/
def depsOf (links : List LinkInfo) (name : String) : List String :=
  (links.filter (fun l => l.to_node == name)).map (fun l => l.from_node)

/-- The mutable traversal state of GraphEngine: the visited set and the
ordered schedule under construction. -/
structure ScheduleState where
  visited : List String
  schedule : List String
deriving Repr, DecidableEq

/-- The recursive visit of graph_engine.py (GraphEngine.visit): mark the
node, visit all upstream dependencies first, then append the node to
the schedule.  The unbounded Python recursion, which terminates because
the visited set grows, is modelled with fuel; compute_schedule passes
more fuel than there are distinct node names, so exhaustion is
unreachable. -/
def visitNode (deps : String → List String) : Nat → String → ScheduleState → ScheduleState
  | 0, _, st => st
  | fuel+1, name, st =>
    if name ∈ st.visited then st
    else
      let st2 := (deps name).foldl (fun s d => visitNode deps fuel d s) ⟨name :: st.visited, st.schedule⟩
      ⟨st2.visited, st2.schedule ++ [name]⟩

/-- compute_schedule of graph_engine.py: start the traversal from the
material output node(s), or from every node when there is none, and
return the accumulated schedule (leaves first, outputs last). -/
def compute_schedule (a : TreeAnalysis) : List String :=
  let fuel := a.nodes.length + a.links.length + 1
  let output_nodes := (a.nodes.filter (fun n => n.bl_idname == "ShaderNodeOutputMaterial")).map (fun n => n.name)
  let start := if output_nodes.isEmpty then a.nodes.map (fun n => n.name) else output_nodes
  (start.foldl (fun s n => visitNode (depsOf a.links) fuel n s) ⟨[], []⟩).schedule

/-- Whether pat occurs at the start of l. -/
def charsStartWith : List Char → List Char → Bool
  | _, [] => true
  | [], _ :: _ => false
  | x :: xs, p :: ps => x == p && charsStartWith xs ps

/-- Whether pat occurs contiguously inside l (Python substring test). -/
def charsContain (pat : List Char) : List Char → Bool
  | [] => pat.isEmpty
  | x :: rest => charsStartWith (x :: rest) pat || charsContain pat rest

/-- Python substring membership: pat in hay. -/
def strContainsSub (hay pat : String) : Bool :=
  charsContain pat.toList hay.toList

/-- A socket of a target (Octane) node. -/
structure OctSocket where
  name : String
  identifier : String
  default_value : Val
deriving Repr, DecidableEq

/-- A target (Octane) node: socket collections plus the attribute bag
written through setattr. -/
structure OctNode where
  name : String
  bl_idname : String
  label : String
  inputs : List OctSocket
  outputs : List OctSocket
  attrs : List (String × Val)
deriving Repr, DecidableEq

/-- Lookup by display name in a bpy target socket collection
(collection.get, first socket with the name). -/
def socketGet (sockets : List OctSocket) (nm : String) : Option OctSocket :=
  sockets.find? (fun s => s.name == nm)

/-- Python str.lower over the character list (socket names are ASCII,
where Char.toLower agrees with the Python lowering). -/
def strLower (s : String) : String :=
  String.mk (s.toList.map Char.toLower)

/-- find_socket_case_insensitive of node_registry.py. -/
def find_socket_case_insensitive (collection : List OctSocket) (nm : String) : Option OctSocket :=
  collection.find? (fun s => strLower s.name == strLower nm)

/-- find_socket_substring of node_registry.py: first socket whose
lowered name contains or is contained in the lowered target name. -/
def find_socket_substring (collection : List OctSocket) (nm : String) : Option OctSocket :=
  collection.find? (fun s =>
    strContainsSub (strLower s.name) (strLower nm) || strContainsSub (strLower nm) (strLower s.name))

/-- First non-None of two options, modelling the early returns of the
layered resolution strategies. -/
def orO {α : Type} (a b : Option α) : Option α :=
  match a with
  | some x => some x
  | none => b

/-- resolve_input_socket of node_registry.py (lines 956 to 1022).  The
per-type registry row INPUT_MAP.get(cycles_type, dict) together with
its inner .get(socket_name, list) is abstracted as the function
type_map from a socket name to its ordered candidate list; the seven
strategies run in order and the first hit wins. -/
def resolve_input_socket (type_map : String → List String) (cycles_socket_name : String)
    (octane_node : OctNode) (socket_identifier : String := "") (socket_index : Int := -1) :
    Option OctSocket :=
  let candidates := type_map cycles_socket_name
  let s1 := candidates.findSome? (fun c => socketGet octane_node.inputs c)
  let s2 := if socket_identifier ≠ "" ∧ socket_identifier ≠ cycles_socket_name then
              (type_map socket_identifier).findSome? (fun c => socketGet octane_node.inputs c)
            else none
  let s3 := socketGet octane_node.inputs cycles_socket_name
  let s4 := candidates.findSome? (fun c => find_socket_case_insensitive octane_node.inputs c)
  let s5 := find_socket_case_insensitive octane_node.inputs cycles_socket_name
  let s6 := find_socket_substring octane_node.inputs cycles_socket_name
  let s7 := if 0 ≤ socket_index ∧ socket_index < (octane_node.inputs.length : Int) then
              octane_node.inputs.get? socket_index.toNat
            else none
  orO s1 (orO s2 (orO s3 (orO s4 (orO s5 (orO s6 s7)))))

/-- resolve_output_socket of node_registry.py (lines 1025 to 1086): the
named strategies in order, then the case-insensitive literal name, the
case-insensitive candidates, the substring match, and finally the first
output of the node when it has one. -/
def resolve_output_socket (type_map : String → List String) (cycles_socket_name : String)
    (octane_node : OctNode) (socket_identifier : String := "") : Option OctSocket :=
  let candidates := type_map cycles_socket_name
  let s1 := candidates.findSome? (fun c => socketGet octane_node.outputs c)
  let s2 := if socket_identifier ≠ "" ∧ socket_identifier ≠ cycles_socket_name then
              (type_map socket_identifier).findSome? (fun c => socketGet octane_node.outputs c)
            else none
  let s3 := socketGet octane_node.outputs cycles_socket_name
  let s4a := find_socket_case_insensitive octane_node.outputs cycles_socket_name
  let s4b := candidates.findSome? (fun c => find_socket_case_insensitive octane_node.outputs c)
  let s5 := find_socket_substring octane_node.outputs cycles_socket_name
  let s6 := octane_node.outputs.head?
  orO s1 (orO s2 (orO s3 (orO s4a (orO s4b (orO s5 s6)))))

/-- In-place update of the first socket carrying a display name
(assigning default_value through a bpy collection.get result). -/
def setFirstNamed (sockets : List OctSocket) (nm : String) (value : Val) : List OctSocket :=
  match sockets with
  | [] => []
  | s :: rest =>
    if s.name == nm then { s with default_value := value } :: rest
    else s :: setFirstNamed rest nm value

/-- set_input of property_mapper.py: write a default value on the first
matching candidate input socket (every modelled socket has a
default_value attribute and accepts the write; the source swallows a
rejected write and tries the next candidate). -/
def set_input (node : OctNode) (cands : List String) (value : Val) : OctNode :=
  match cands with
  | [] => node
  | c :: rest =>
    if (socketGet node.inputs c).isSome then
      { node with inputs := setFirstNamed node.inputs c value }
    else set_input node rest value

/-- set_prop of property_mapper.py: setattr on the node attribute bag
(creating the attribute when absent). -/
def set_prop (node : OctNode) (attr : String) (value : Val) : OctNode :=
  if node.attrs.any (fun p => p.1 == attr) then
    { node with attrs := node.attrs.map (fun p => if p.1 == attr then (p.1, value) else p) }
  else { node with attrs := node.attrs ++ [(attr, value)] }

/-- Python dict.get over the identifier-keyed snapshot entries; a key
stored with value None and a missing key both give none, exactly as in
the source. -/
def infoLookup (entries : List (String × Option Val)) (key : String) : Option Val :=
  match entries.find? (fun p => p.1 == key) with
  | some p => p.2
  | none => none

/-- The reverse lookup loop of get_input_value: walk the identifier to
display-name entries, and return the first stored non-None value whose
display name matches. -/
def revLookup (entries : List (String × Option Val)) : List (String × String) → String → Option Val
  | [], _ => none
  | (idf, disp) :: rest, nm =>
    if disp == nm then
      match infoLookup entries idf with
      | some v => some v
      | none => revLookup entries rest nm
    else revLookup entries rest nm

/-- get_input_value of property_mapper.py: direct identifier match, then
reverse lookup through the display names, then the default. -/
def get_input_value (info : NodeInfo) (nm : String) (dflt : Option Val := none) : Option Val :=
  match infoLookup info.inputs nm with
  | some v => some v
  | none =>
    match revLookup info.inputs info.input_identifiers nm with
    | some v => some v
    | none => dflt

/-- get_output_value of property_mapper.py. -/
def get_output_value (info : NodeInfo) (nm : String) (dflt : Option Val := none) : Option Val :=
  match infoLookup info.outputs nm with
  | some v => some v
  | none =>
    match revLookup info.outputs info.output_identifiers nm with
    | some v => some v
    | none => dflt

/-- The simple float and color channel table of transfer_principled. -/
def principled_simple_transfers : List (String × List String) :=
  [("Base Color", ["Albedo color", "Albedo", "Diffuse"]),
   ("Metallic", ["Metallic", "Metallic float"]),
   ("Roughness", ["Roughness", "Roughness float"]),
   ("Specular IOR Level", ["Specular", "Specular float"]),
   ("IOR", ["Dielectric IOR", "Index", "IOR"]),
   ("Alpha", ["Opacity", "Opacity float"]),
   ("Coat Weight", ["Coating", "Coating float"]),
   ("Coat Roughness", ["Coating roughness", "Coating roughness float"]),
   ("Sheen Weight", ["Sheen", "Sheen float"]),
   ("Sheen Roughness", ["Sheen roughness", "Sheen roughness float"]),
   ("Anisotropic", ["Anisotropy", "Anisotropy float"]),
   ("Anisotropic Rotation", ["Anisotropy rotation", "Rotation"]),
   ("Thin Film Thickness", ["Film width", "Thin film thickness"]),
   ("Thin Film IOR", ["Film IOR", "Thin film IOR"]),
   ("Subsurface Weight", ["SSS", "Subsurface"])]

/-- The elif branch of the emission block: raise surface brightness when
the emission color has a positive visible component (objects without a
length give the one-element zero tuple, hence false). -/
def emissionColorBrightness (node : OctNode) (em_color : Option Val) : OctNode :=
  match em_color with
  | some c => if colorAnyPos3 c then set_prop node "surface_brightness" (Val.boolean true) else node
  | none => node

/-- transfer_principled of property_mapper.py (lines 113 to 179):
simple channel copies, the emission block, the transmission glass
treatment above the one half threshold, and the subsurface channels. -/
def transfer_principled (info : NodeInfo) (node0 : OctNode) : OctNode :=
  let node := principled_simple_transfers.foldl (fun n p =>
      match get_input_value info p.1 with
      | some v => set_input n p.2 v
      | none => n) node0
  let em_color := get_input_value info "Emission Color"
  let em_strength := get_input_value info "Emission Strength"
  let node := match em_color with
    | some c => set_input node ["Emission", "Emission color"] c
    | none => node
  let node := match em_strength with
    | some s =>
      let node := set_input node ["Emission power", "Emission weight"] s
      match s with
      | Val.num q =>
        if q > 0 then set_prop node "surface_brightness" (Val.boolean true)
        else emissionColorBrightness node em_color
      | _ => emissionColorBrightness node em_color
    | none => node
  let tw := match get_input_value info "Transmission Weight" with
    | some v => some v
    | none => get_input_value info "Transmission"
  let node := match tw with
    | some (Val.num q) =>
      let node := set_input node ["Transmission", "Transmission float"] (Val.num q)
      if q > mkRat 1 2 then
        let node := set_input node ["Albedo color", "Albedo", "Diffuse"] (Val.color 0 0 0 1)
        let node := match get_input_value info "Base Color" with
          | some bc => set_input node ["Transmission color", "Transmission"] bc
          | none => node
        set_prop node "fake_shadows" (Val.boolean true)
      else node
    | _ => node
  let node := match get_input_value info "Subsurface Radius" with
    | some v => set_input node ["Absorption", "Medium radius"] v
    | none => node
  let node := match get_input_value info "Subsurface Scale" with
    | some v => set_input node ["Density", "Medium scale"] v
    | none => node
  node

/-- A reference to a target socket, by node name and socket display
name (MixMaterial slots carry distinct display names). -/
structure SockRef where
  node : String
  socket : String
deriving Repr, DecidableEq

/-- A link of the target tree. -/
structure TLink where
  from_socket : SockRef
  to_socket : SockRef
deriving Repr, DecidableEq

/-- The links arriving at a given target socket (bpy socket.links). -/
def linksInto (links : List TLink) (nodeName sockName : String) : List TLink :=
  links.filter (fun l => l.to_socket.node == nodeName && l.to_socket.socket == sockName)

/-- fix_mix_shader_links of conversion_engine.py (lines 160 to 215):
for every source mix shader node, locate the two material input slots
of the lowered node (by name, falling back to positional slots 1 and
2), capture their incoming connections, remove them, and recreate them
swapped. -/
def fix_mix_shader_links (analysis : TreeAnalysis) (node_map : List (String × OctNode))
    (links0 : List TLink) : List TLink :=
  analysis.nodes.foldl (fun ls info =>
    if info.bl_idname == "ShaderNodeMixShader" then
      match node_map.find? (fun p => p.1 == info.name) with
      | none => ls
      | some p =>
        let oct := p.2
        let mat1 := ["Material1", "Shader1", "Material 1"].findSome? (fun nm => socketGet oct.inputs nm)
        let mat2 := ["Material2", "Shader2", "Material 2"].findSome? (fun nm => socketGet oct.inputs nm)
        let pair : Option (OctSocket × OctSocket) :=
          match mat1, mat2 with
          | some a, some b => some (a, b)
          | _, _ =>
            if 3 ≤ oct.inputs.length then
              match oct.inputs.get? 1, oct.inputs.get? 2 with
              | some a, some b => some (a, b)
              | _, _ => none
            else none
        match pair with
        | none => ls
        | some (m1, m2) =>
          let m1from := ((linksInto ls oct.name m1.name).head?).map (fun l => l.from_socket)
          let m2from := ((linksInto ls oct.name m2.name).head?).map (fun l => l.from_socket)
          if m1from.isNone && m2from.isNone then ls
          else
            let ls := ls.filter (fun l => !(l.to_socket.node == oct.name && l.to_socket.socket == m1.name))
            let ls := ls.filter (fun l => !(l.to_socket.node == oct.name && l.to_socket.socket == m2.name))
            let ls := match m1from with
              | some s => ls ++ [{ from_socket := s, to_socket := { node := oct.name, socket := m2.name } }]
              | none => ls
            let ls := match m2from with
              | some s => ls ++ [{ from_socket := s, to_socket := { node := oct.name, socket := m1.name } }]
              | none => ls
            ls
    else ls) links0

/-- Per-axis scale of the owning object. -/
structure ObjScale where
  x : ℚ
  y : ℚ
  z : ℚ
deriving Repr, DecidableEq

/-- Python abs over the rationals. -/
def ratAbs (q : ℚ) : ℚ := if q < 0 then -q else q

/-- Rational subtraction in a kernel-computable form; equal to the
standard subtraction (see ratSub_eq below). -/
def ratSub (a b : ℚ) : ℚ := mkRat (a.num * b.den - b.num * a.den) (a.den * b.den)

/-- Rational multiplication in a kernel-computable form; equal to the
standard multiplication (see ratMul_eq below). -/
def ratMul (a b : ℚ) : ℚ := mkRat (a.num * b.num) (a.den * b.den)

/-- Componentwise multiplication of a socket value by the object scale
(list conversion of a color keeps the fourth component; list
conversion of a scalar raises TypeError in the source, which is caught
and leaves the value unchanged). -/
def scaleValue (v : Val) (s : ObjScale) : Val :=
  match v with
  | Val.vec x y z => Val.vec (ratMul x s.x) (ratMul y s.y) (ratMul z s.z)
  | Val.color r g b a => Val.color (ratMul r s.x) (ratMul g s.y) (ratMul b s.z) a
  | v => v

/-- The first definition of apply_scale_correction in
conversion_engine.py (lines 547 to 581): skip near-unit scales, then
multiply the Scale input of every lowered Mapping node by the object
scale.  This definition is shadowed by a later one in the same module
and is never the binding used at the call site. -/
def apply_scale_correction_v547 (obj : Option ObjScale) (node_map : List (String × OctNode))
    (analysis : TreeAnalysis) : List (String × OctNode) :=
  match obj with
  | none => node_map
  | some s =>
    if ratAbs (ratSub s.x 1) < mkRat 1 1000 ∧ ratAbs (ratSub s.y 1) < mkRat 1 1000
        ∧ ratAbs (ratSub s.z 1) < mkRat 1 1000 then node_map
    else
      analysis.nodes.foldl (fun nm info =>
        if info.bl_idname == "ShaderNodeMapping" then
          match nm.find? (fun p => p.1 == info.name) with
          | some p =>
            let oct := p.2
            match orO (socketGet oct.inputs "Scale") (socketGet oct.inputs "Scaling") with
            | some sk =>
              nm.map (fun q =>
                if q.1 == info.name then
                  (q.1, { oct with inputs := setFirstNamed oct.inputs sk.name (scaleValue sk.default_value s) })
                else q)
            | none => nm
          | none => nm
        else nm) node_map

/-- The second, effective definition of apply_scale_correction in
conversion_engine.py (lines 646 to 652).  Because Python binds a module
level name to its textually last definition, the call at line 817 of
convert_material runs this body, whose only statement is pass: it
leaves every node untouched. -/
def apply_scale_correction (_obj : Option ObjScale) (node_map : List (String × OctNode))
    (_analysis : TreeAnalysis) : List (String × OctNode) :=
  node_map

/-- convert_object_materials of conversion_engine.py (lines 833 to
852), parameterised over the per-material conversion.  The loop has no
try or except: an exceptional conversion result propagates out of the
whole batch, which the Except monad models.  The result pairs the
updated material slots with the converted list the source returns. -/
def convert_object_materials {Mat E : Type} (conv : Mat → Except E (Option Mat)) :
    List (Option Mat) → Except E (List (Option Mat) × List Mat)
  | [] => Except.ok ([], [])
  | none :: rest =>
    match convert_object_materials conv rest with
    | Except.error e => Except.error e
    | Except.ok (s, c) => Except.ok (none :: s, c)
  | some m :: rest =>
    match conv m with
    | Except.error e => Except.error e
    | Except.ok none =>
      match convert_object_materials conv rest with
      | Except.error e => Except.error e
      | Except.ok (s, c) => Except.ok (some m :: s, c)
    | Except.ok (some nm) =>
      match convert_object_materials conv rest with
      | Except.error e => Except.error e
      | Except.ok (s, c) => Except.ok (some nm :: s, nm :: c)

/-- Python exception values observable at the caller. -/
inductive PyError where
  | typeError (msg : String)
deriving Repr, DecidableEq

/-- A source material handed to convert_material: its name, whether it
carries a node tree, and the tree. -/
structure SrcMat where
  name : String
  has_tree : Bool
  tree : SourceTree
deriving Repr, DecidableEq

/-- The module state touched by convert_material: the named material
datablocks of bpy.data.materials (name to handle), the allocator for
fresh handles, and the module level ConversionCache (original name to
converted name). -/
structure ConvWorld where
  materials : List (String × Nat)
  next_id : Nat
  cache : List (String × String)
deriving Repr, DecidableEq

/-- Unique-name policy of bpy datablock renaming, one collision level
(deeper collision chains are not needed by any claim). -/
def freshName (taken : List String) (base : String) : String :=
  if taken.contains base then base ++ ".001" else base

/-- convert_material of conversion_engine.py (lines 743 to 826) over
the module state: the missing tree early return, the cache
short-circuit, and otherwise the pipeline, which analyzes the original
tree, duplicates the material, and then constructs
GraphEngine(analysis, group_converter_cb=...).  GraphEngine.__init__
of graph_engine.py accepts only the analysis argument, so that call
raises TypeError: steps 5 to 14 of the pipeline, including the cache
registration of step 14, are never reached. -/
def convert_material (w : ConvWorld) (mat : SrcMat) : Except PyError (Option Nat) × ConvWorld :=
  if !mat.has_tree then (Except.ok none, w)
  else
    match w.cache.find? (fun p => p.1 == mat.name) with
    | some p =>
      (Except.ok ((w.materials.find? (fun q => q.1 == p.2)).map Prod.snd), w)
    | none =>
      let _analysis := analyze_tree mat.tree
      let new_name := freshName (w.materials.map Prod.fst) (mat.name ++ "_OCTANE")
      let new_id := w.next_id
      let w := { w with materials := w.materials ++ [(new_name, new_id)], next_id := w.next_id + 1 }
      (Except.error (PyError.typeError "GraphEngine.init got an unexpected keyword argument group_converter_cb"), w)

/-- A heap of node trees addressed by handle, with a bump allocator for
fresh handles (bpy datablock copies always allocate a new tree). -/
structure Heap (τ : Type) where
  tree : Nat → τ
  nextId : Nat

/-- Mutation of the tree stored at one handle. -/
def heapWrite {τ : Type} (h : Heap τ) (i : Nat) (f : τ → τ) : Heap τ :=
  { h with tree := fun j => if j = i then f (h.tree j) else h.tree j }

/-- The tree-level effect trace of convert_material (conversion_engine
lines 765 to 826): the analysis reads the source tree and returns a
pure snapshot; the material copy allocates a fresh tree handle; and
every subsequent phase (clear, node creation, property transfer, link
rebuild, the post processors, gamma, scale, driver rebinding) mutates
the tree at the fresh handle, with the driver phase additionally
reading the source tree.  The phases are abstract functions of the
snapshot because the claim concerns only which tree each one is
applied to.  (The GraphEngine constructor defect aborts this sequence
after the clear step at runtime; truncating the sequence only removes
writes and cannot add a source mutation.) -/
def convert_material_tree_effects {τ : Type} (analyze : τ → TreeAnalysis)
    (clearStep : τ → τ)
    (createStep transferStep linkStep fallbackStep mixStep alphaStep emStep emInsStep volStep gammaStep scaleStep : TreeAnalysis → τ → τ)
    (driverStep : τ → TreeAnalysis → τ → τ)
    (h : Heap τ) (srcId : Nat) : Heap τ × Nat :=
  let a := analyze (h.tree srcId)
  let newId := h.nextId
  let h : Heap τ := { tree := fun j => if j = newId then h.tree srcId else h.tree j, nextId := h.nextId + 1 }
  let h := heapWrite h newId clearStep
  let h := heapWrite h newId (createStep a)
  let h := heapWrite h newId (transferStep a)
  let h := heapWrite h newId (linkStep a)
  let h := heapWrite h newId (fallbackStep a)
  let h := heapWrite h newId (mixStep a)
  let h := heapWrite h newId (alphaStep a)
  let h := heapWrite h newId (emStep a)
  let h := heapWrite h newId (emInsStep a)
  let h := heapWrite h newId (volStep a)
  let h := heapWrite h newId (gammaStep a)
  let h := heapWrite h newId (scaleStep a)
  let h := heapWrite h newId (driverStep (h.tree srcId) a)
  (h, newId)

/-- The fold of visitNode over a list of node names, as run both over
the dependency list of a node and over the start nodes of
compute_schedule. -/
def foldVisit (deps : String → List String) (fuel : Nat) (ds : List String) (s : ScheduleState) : ScheduleState :=
  ds.foldl (fun acc d => visitNode deps fuel d acc) s

/-- Number of names of the universe not yet visited: the termination
measure of the traversal. -/
def unvisitedCount (univ : List String) (st : ScheduleState) : Nat :=
  univ.countP (fun x => decide (x ∉ st.visited))

/-- A gray node: already marked visited but not yet appended to the
schedule (an active frame of the recursive visit). -/
def Gray (st : ScheduleState) (g : String) : Prop :=
  g ∈ st.visited ∧ g ∉ st.schedule

/-- Invariant of the traversal state: the schedule has no duplicates,
is contained in the visited set, is closed under upstream
dependencies, and lists every dependency strictly before its
consumer. -/
def SchedInv (deps : String → List String) (st : ScheduleState) : Prop :=
  st.schedule.Nodup ∧
  (∀ n ∈ st.schedule, n ∈ st.visited) ∧
  (∀ n ∈ st.schedule, ∀ d ∈ deps n, d ∈ st.schedule) ∧
  (∀ n ∈ st.schedule, ∀ d ∈ deps n, st.schedule.indexOf d < st.schedule.indexOf n)

/-- One traversal state extends another: the visited set grows and the
schedule gains only a suffix of previously unvisited nodes. -/
def Extends (st st' : ScheduleState) : Prop :=
  (∀ x ∈ st.visited, x ∈ st'.visited) ∧
  ∃ t, st'.schedule = st.schedule ++ t ∧ ∀ x ∈ t, x ∉ st.visited ∧ x ∈ st'.visited

/-- Postcondition of one visit call: the invariant is preserved, the
state extends the old one, the visited node is marked, it is scheduled
unless it was already visited, and every newly visited node got
scheduled. -/
def VisitConcl (deps : String → List String) (name : String) (st st' : ScheduleState) : Prop :=
  SchedInv deps st' ∧ Extends st st' ∧ name ∈ st'.visited ∧
  (name ∈ st'.schedule ∨ name ∈ st.visited) ∧
  (∀ x ∈ st'.visited, x ∉ st.visited → x ∈ st'.schedule)

/-- The universe of names the traversal of an analysis can ever touch:
the analysis node names (start points) and the link sources
(dependency values). -/
def analysisUniv (a : TreeAnalysis) : List String :=
  a.nodes.map (fun n => n.name) ++ a.links.map (fun l => l.from_node)

/-- The start list of compute_schedule: the material output nodes, or
every node when there is none. -/
def scheduleStart (a : TreeAnalysis) : List String :=
  let output_nodes := (a.nodes.filter (fun n => n.bl_idname == "ShaderNodeOutputMaterial")).map (fun n => n.name)
  if output_nodes.isEmpty then a.nodes.map (fun n => n.name) else output_nodes

/-- A three-node acyclic example analysis (image texture into
principled material into output) instantiating the schedule claim. -/
def c1ExampleAnalysis : TreeAnalysis :=
  { nodes := [
      { name := "A", bl_idname := "ShaderNodeTexImage", label := "A", location := (0, 0) },
      { name := "B", bl_idname := "ShaderNodeBsdfPrincipled", label := "B", location := (0, 0) },
      { name := "Out", bl_idname := "ShaderNodeOutputMaterial", label := "Out", location := (0, 0) }],
    links := [
      { from_node := "A", from_socket := "Color", to_node := "B", to_socket := "Base Color" },
      { from_node := "B", from_socket := "BSDF", to_node := "Out", to_socket := "Surface" }] }

/-- A rank function witnessing acyclicity of the example analysis. -/
def c1ExampleRank : String → Nat :=
  fun s => if s = "A" then 0 else if s = "B" then 1 else 2

/-- An example registry row for the input resolution claim: the source
socket Base Color maps to the single candidate Diffuse. -/
def c7ExampleMap : String → List String :=
  fun nm => if nm = "Base Color" then ["Diffuse"] else []

/-- An example target node whose only input is named diffuse in
lowercase, so exact lookups miss and only case-insensitive matching
hits. -/
def c7ExampleNode : OctNode :=
  { name := "N", bl_idname := "OctaneUniversalMaterial", label := "",
    inputs := [{ name := "diffuse", identifier := "diffuse", default_value := Val.num 0 }],
    outputs := [], attrs := [] }

/-- A principled source tree with the given base color socket default
and transmission weight, for the transmission threshold claim. -/
def c3Tree (bc : Val) (tw : ℚ) : SourceTree :=
  { nodes := [
      { name := "P", bl_idname := "ShaderNodeBsdfPrincipled", label := "P", location := (0, 0),
        inputs := [
          { name := "Base Color", identifier := "Base Color", default_value := some bc },
          { name := "Transmission Weight", identifier := "Transmission Weight",
            default_value := some (Val.num tw) }],
        outputs := [], attrs := [] }],
    links := [] }

/-- The snapshot the analyzer produces for the principled node of
c3Tree, as handed to the property transfer. -/
def c3Info (bc : Val) (tw : ℚ) : NodeInfo :=
  { name := "P", bl_idname := "ShaderNodeBsdfPrincipled", label := "P", location := (0, 0),
    inputs := [("Base Color", some bc), ("Transmission Weight", some (Val.num tw))],
    input_identifiers := [("Base Color", "Base Color"), ("Transmission Weight", "Transmission Weight")] }

/-- Shorthand for a target socket whose identifier equals its name. -/
def osock (nm : String) (v : Val) : OctSocket :=
  { name := nm, identifier := nm, default_value := v }

/-- A target universal material node with the slots the principled
transfer writes. -/
def octUniversalNode : OctNode :=
  { name := "U", bl_idname := "OctaneUniversalMaterial", label := "",
    inputs := [
      osock "Albedo color" (Val.color (mkRat 4 5) (mkRat 4 5) (mkRat 4 5) 1),
      osock "Metallic" (Val.num 0), osock "Roughness" (Val.num 0),
      osock "Specular" (Val.num 0), osock "Dielectric IOR" (Val.num (mkRat 29 20)),
      osock "Opacity" (Val.num 1), osock "Coating" (Val.num 0),
      osock "Coating roughness" (Val.num 0), osock "Sheen" (Val.num 0),
      osock "Sheen roughness" (Val.num 0), osock "Anisotropy" (Val.num 0),
      osock "Anisotropy rotation" (Val.num 0), osock "Film width" (Val.num 0),
      osock "Film IOR" (Val.num (mkRat 29 20)), osock "SSS" (Val.num 0),
      osock "Emission" (Val.color 0 0 0 1), osock "Emission power" (Val.num 0),
      osock "Transmission" (Val.num 0), osock "Transmission color" (Val.color 1 1 1 1)],
    outputs := [osock "OutMat" (Val.num 0)], attrs := [] }

/-- The default value currently held by a named input of a target
node. -/
def inputDefault (node : OctNode) (nm : String) : Option Val :=
  (socketGet node.inputs nm).map (fun s => s.default_value)

/-- A principled source tree whose emission color is black but whose
emission strength is five, for the emission flag claim. -/
def c5ExampleTree : SourceTree :=
  { nodes := [
      { name := "P", bl_idname := "ShaderNodeBsdfPrincipled", label := "P", location := (0, 0),
        inputs := [
          { name := "Emission Color", identifier := "Emission Color",
            default_value := some (Val.color 0 0 0 1) },
          { name := "Emission Strength", identifier := "Emission Strength",
            default_value := some (Val.num 5) }],
        outputs := [{ name := "BSDF", identifier := "BSDF", default_value := none }],
        attrs := [] }],
    links := [] }

/-- The analysis entry of a single source mix shader node. -/
def c8Analysis : TreeAnalysis :=
  { nodes := [{ name := "Mix", bl_idname := "ShaderNodeMixShader", label := "Mix", location := (0, 0) }] }

/-- The lowered Octane mix material node for the mix slot claim. -/
def octMixNode : OctNode :=
  { name := "OctMix", bl_idname := "OctaneMixMaterial", label := "",
    inputs := [osock "Amount" (Val.num (mkRat 1 2)), osock "Material1" (Val.num 0), osock "Material2" (Val.num 0)],
    outputs := [osock "OutMat" (Val.num 0)], attrs := [] }

/-- The node map taking the source mix node to the lowered node. -/
def c8NodeMap : List (String × OctNode) := [("Mix", octMixNode)]

/-- The lowered Octane transform node of a source Mapping node, with a
unit Scale input. -/
def octMappingNode : OctNode :=
  { name := "OctMap", bl_idname := "OctaneTransform3D", label := "",
    inputs := [osock "Translation" (Val.vec 0 0 0), osock "Rotation" (Val.vec 0 0 0),
      osock "Scale" (Val.vec 1 1 1)],
    outputs := [osock "OutTransform" (Val.num 0)], attrs := [] }

/-- The analysis entry of a single source Mapping node. -/
def c6Analysis : TreeAnalysis :=
  { nodes := [{ name := "Map", bl_idname := "ShaderNodeMapping", label := "Map", location := (0, 0) }] }

/-- The node map taking the Mapping node to the lowered transform. -/
def c6NodeMap : List (String × OctNode) := [("Map", octMappingNode)]

/-- An owning object with non-unit per-axis scale two. -/
def c6Obj : ObjScale := { x := 2, y := 2, z := 2 }

/-- An empty batch world: no materials, no cached conversions. -/
def c4ExampleWorld : ConvWorld := { materials := [], next_id := 0, cache := [] }

/-- A material with an (empty) node tree for the cache claim. -/
def c4ExampleMat : SrcMat := { name := "M", has_tree := true, tree := { nodes := [], links := [] } }

/-! Theorems.  First the lemmas supporting the schedule correctness
claim, then the claim theorems themselves. -/

theorem ratSub_eq (a b : ℚ) : ratSub a b = a - b := (Rat.sub_def' a b).symm

theorem ratMul_eq (a b : ℚ) : ratMul a b = a * b := by
  rw [ratMul, Rat.mul_def, Rat.normalize_eq_mkRat]

theorem Extends_refl (st : ScheduleState) : Extends st st :=
  ⟨fun _ h => h, [], by simp, by simp⟩

theorem Extends_trans {a b c : ScheduleState} (h1 : Extends a b) (h2 : Extends b c) :
    Extends a c := by
  obtain ⟨v1, t1, e1, p1⟩ := h1
  obtain ⟨v2, t2, e2, p2⟩ := h2
  refine ⟨fun x hx => v2 x (v1 x hx), t1 ++ t2, by rw [e2, e1, List.append_assoc], ?_⟩
  intro x hx
  rcases List.mem_append.1 hx with h | h
  · exact ⟨(p1 x h).1, v2 x (p1 x h).2⟩
  · exact ⟨fun hav => (p2 x h).1 (v1 x hav), (p2 x h).2⟩

theorem gray_pres {a b : ScheduleState} (hext : Extends a b)
    (hnew : ∀ x ∈ b.visited, x ∉ a.visited → x ∈ b.schedule) :
    ∀ g, Gray b g → Gray a g := by
  rintro g ⟨hv, hs⟩
  obtain ⟨_, t, he, _⟩ := hext
  by_cases hga : g ∈ a.visited
  · refine ⟨hga, fun hgs => hs ?_⟩
    rw [he]; exact List.mem_append.2 (Or.inl hgs)
  · exact absurd (hnew g hv hga) hs

theorem unvisitedCount_mono {univ : List String} {a b : ScheduleState}
    (h : ∀ x ∈ a.visited, x ∈ b.visited) :
    unvisitedCount univ b ≤ unvisitedCount univ a := by
  unfold unvisitedCount
  refine List.countP_mono_left ?_
  intro x _ hx
  simp only [decide_eq_true_eq] at hx ⊢
  exact fun hxa => hx (h x hxa)

theorem unvisitedCount_strict {univ : List String} {a b : ScheduleState} {nm : String}
    (hmem : nm ∈ univ) (hna : nm ∉ a.visited) (hnb : nm ∈ b.visited)
    (h : ∀ x ∈ a.visited, x ∈ b.visited) :
    unvisitedCount univ b < unvisitedCount univ a := by
  induction univ with
  | nil => cases hmem
  | cons u rest ih =>
    unfold unvisitedCount at *
    rw [List.countP_cons, List.countP_cons]
    rcases List.mem_cons.1 hmem with rfl | hmem2
    · have hb : (if (decide (nm ∉ b.visited)) = true then (1:Nat) else 0) = 0 := by simp [hnb]
      have ha : (if (decide (nm ∉ a.visited)) = true then (1:Nat) else 0) = 1 := by simp [hna]
      have hle : List.countP (fun x => decide (x ∉ b.visited)) rest
          ≤ List.countP (fun x => decide (x ∉ a.visited)) rest := by
        refine List.countP_mono_left ?_
        intro x _ hx
        simp only [decide_eq_true_eq] at hx ⊢
        exact fun hxa => hx (h x hxa)
      rw [hb, ha]
      omega
    · have hlt := ih hmem2
      have hcomp : (if (decide (u ∉ b.visited)) = true then 1 else 0)
          ≤ (if (decide (u ∉ a.visited)) = true then (1:Nat) else 0) := by
        by_cases hub : u ∈ b.visited
        · simp [hub]
        · have hua : u ∉ a.visited := fun hx => hub (h u hx)
          simp [hua, hub]
      omega

theorem foldVisit_spec (deps : String → List String) (univ : List String) (rank : String → Nat)
    (fuel : Nat)
    (IH : ∀ name st, SchedInv deps st → unvisitedCount univ st < fuel → name ∈ univ →
      (∀ g, Gray st g → rank name < rank g) →
      VisitConcl deps name st (visitNode deps fuel name st)) :
    ∀ (ds : List String) (s : ScheduleState) (bnd : Nat),
      SchedInv deps s → unvisitedCount univ s < fuel →
      (∀ d ∈ ds, d ∈ univ ∧ rank d < bnd) →
      (∀ g, Gray s g → bnd ≤ rank g) →
      SchedInv deps (foldVisit deps fuel ds s) ∧
      Extends s (foldVisit deps fuel ds s) ∧
      (∀ d ∈ ds, d ∈ (foldVisit deps fuel ds s).schedule ∨ d ∈ s.visited) ∧
      (∀ x ∈ (foldVisit deps fuel ds s).visited, x ∉ s.visited → x ∈ (foldVisit deps fuel ds s).schedule) := by
  intro ds
  induction ds with
  | nil =>
    intro s bnd hinv _ _ _
    have hid : foldVisit deps fuel [] s = s := rfl
    rw [hid]
    exact ⟨hinv, Extends_refl s, by simp, fun x hx hnx => absurd hx hnx⟩
  | cons d rest ihds =>
    intro s bnd hinv hcount hds hgray
    have hd := hds d (List.mem_cons_self d rest)
    have h1 := IH d s hinv hcount hd.1 (fun g hg => lt_of_lt_of_le hd.2 (hgray g hg))
    obtain ⟨hinv1, hext1, hdv1, hds1, hnew1⟩ := h1
    have hgray1 : ∀ g, Gray (visitNode deps fuel d s) g → bnd ≤ rank g :=
      fun g hg => hgray g (gray_pres hext1 hnew1 g hg)
    have hcount1 : unvisitedCount univ (visitNode deps fuel d s) < fuel :=
      lt_of_le_of_lt (unvisitedCount_mono hext1.1) hcount
    have h2 := ihds (visitNode deps fuel d s) bnd hinv1 hcount1
      (fun d2 hmem => hds d2 (List.mem_cons_of_mem d hmem)) hgray1
    obtain ⟨hinv2, hext2, hsched2, hnew2⟩ := h2
    have hfold : foldVisit deps fuel (d :: rest) s
        = foldVisit deps fuel rest (visitNode deps fuel d s) := rfl
    rw [hfold]
    obtain ⟨hvis2, t2, he2, hp2⟩ := hext2
    refine ⟨hinv2, Extends_trans hext1 ⟨hvis2, t2, he2, hp2⟩, ?_, ?_⟩
    · intro d2 hd2
      rcases List.mem_cons.1 hd2 with rfl | hd2
      · rcases hds1 with hsch | hvis
        · left; rw [he2]; exact List.mem_append.2 (Or.inl hsch)
        · right; exact hvis
      · rcases hsched2 d2 hd2 with hsch | hvis
        · left; exact hsch
        · by_cases hvs : d2 ∈ s.visited
          · right; exact hvs
          · left
            rw [he2]
            exact List.mem_append.2 (Or.inl (hnew1 d2 hvis hvs))
    · intro x hx hnx
      by_cases hx1 : x ∈ (visitNode deps fuel d s).visited
      · rw [he2]
        exact List.mem_append.2 (Or.inl (hnew1 x hx1 hnx))
      · exact hnew2 x hx hx1

theorem visitNode_spec (deps : String → List String) (univ : List String) (rank : String → Nat)
    (hdeps : ∀ n d, d ∈ deps n → d ∈ univ)
    (hrank : ∀ n d, d ∈ deps n → rank d < rank n) :
    ∀ (fuel : Nat) (name : String) (st : ScheduleState),
      SchedInv deps st → unvisitedCount univ st < fuel → name ∈ univ →
      (∀ g, Gray st g → rank name < rank g) →
      VisitConcl deps name st (visitNode deps fuel name st) := by
  intro fuel
  induction fuel with
  | zero =>
    intro name st _ hcount _ _
    exact absurd hcount (Nat.not_lt_zero _)
  | succ f ihf =>
    intro name st hinv hcount hname hgray
    by_cases hv : name ∈ st.visited
    · have hid : visitNode deps (f+1) name st = st := by simp [visitNode, hv]
      rw [hid]
      exact ⟨hinv, Extends_refl st, hv, Or.inr hv, fun x hx hnx => absurd hx hnx⟩
    · have hstep : visitNode deps (f+1) name st
          = ⟨(foldVisit deps f (deps name) ⟨name :: st.visited, st.schedule⟩).visited,
             (foldVisit deps f (deps name) ⟨name :: st.visited, st.schedule⟩).schedule ++ [name]⟩ := by
        simp [visitNode, hv, foldVisit]
      have hinv1 : SchedInv deps ⟨name :: st.visited, st.schedule⟩ := by
        obtain ⟨i1, i2, i3, i4⟩ := hinv
        exact ⟨i1, fun n hn => List.mem_cons_of_mem _ (i2 n hn), i3, i4⟩
      have hcount1 : unvisitedCount univ (⟨name :: st.visited, st.schedule⟩ : ScheduleState) < f := by
        have hstrict : unvisitedCount univ (⟨name :: st.visited, st.schedule⟩ : ScheduleState)
            < unvisitedCount univ st := by
          refine unvisitedCount_strict hname hv ?_ ?_
          · exact List.mem_cons_self _ _
          · exact fun x hx => List.mem_cons_of_mem _ hx
        omega
      have hds : ∀ d ∈ deps name, d ∈ univ ∧ rank d < rank name :=
        fun d hd => ⟨hdeps name d hd, hrank name d hd⟩
      have hgray1 : ∀ g, Gray (⟨name :: st.visited, st.schedule⟩ : ScheduleState) g → rank name ≤ rank g := by
        rintro g ⟨hgv, hgs⟩
        rcases List.mem_cons.1 hgv with rfl | hgv2
        · exact le_refl _
        · exact le_of_lt (hgray g ⟨hgv2, hgs⟩)
      obtain ⟨hinv2, hext2, hds2, hnew2⟩ :=
        foldVisit_spec deps univ rank f ihf (deps name) ⟨name :: st.visited, st.schedule⟩
          (rank name) hinv1 hcount1 hds hgray1
      obtain ⟨hvis2, t2, he2, hp2⟩ := hext2
      have he2' : (foldVisit deps f (deps name) ⟨name :: st.visited, st.schedule⟩).schedule
          = st.schedule ++ t2 := he2
      have hp2' : ∀ x ∈ t2, x ∉ (name :: st.visited)
          ∧ x ∈ (foldVisit deps f (deps name) ⟨name :: st.visited, st.schedule⟩).visited := hp2
      have hnots : name ∉ (foldVisit deps f (deps name) ⟨name :: st.visited, st.schedule⟩).schedule := by
        intro hmem
        rw [he2'] at hmem
        rcases List.mem_append.1 hmem with h | h
        · exact hv (hinv.2.1 name h)
        · exact (hp2' name h).1 (List.mem_cons_self _ _)
      have hdepsched : ∀ d ∈ deps name,
          d ∈ (foldVisit deps f (deps name) ⟨name :: st.visited, st.schedule⟩).schedule := by
        intro d hd
        rcases hds2 d hd with hsch | hvis
        · exact hsch
        · rcases List.mem_cons.1 hvis with rfl | hvz
          · exact absurd (hrank d d hd) (lt_irrefl _)
          · by_cases hdsch : d ∈ st.schedule
            · rw [he2']; exact List.mem_append.2 (Or.inl hdsch)
            · have h1 := hgray d ⟨hvz, hdsch⟩
              have h2 := hrank name d hd
              omega
      rw [hstep]
      refine ⟨⟨?_, ?_, ?_, ?_⟩, ⟨?_, t2 ++ [name], ?_, ?_⟩, ?_, ?_, ?_⟩
      · -- nodup
        refine List.nodup_append.2 ⟨hinv2.1, List.nodup_singleton name, ?_⟩
        intro x hx1 hx2
        rw [List.mem_singleton] at hx2
        subst hx2
        exact hnots hx1
      · -- schedule inside visited
        intro n hn
        rcases List.mem_append.1 hn with h | h
        · exact hinv2.2.1 n h
        · rw [List.mem_singleton] at h
          subst h
          exact hvis2 n (List.mem_cons_self _ _)
      · -- closure under dependencies
        intro n hn d hd
        rcases List.mem_append.1 hn with h | h
        · exact List.mem_append.2 (Or.inl (hinv2.2.2.1 n h d hd))
        · rw [List.mem_singleton] at h
          subst h
          exact List.mem_append.2 (Or.inl (hdepsched d hd))
      · -- ordering
        intro n hn d hd
        rcases List.mem_append.1 hn with h | h
        · have hdsch := hinv2.2.2.1 n h d hd
          rw [List.indexOf_append_of_mem hdsch, List.indexOf_append_of_mem h]
          exact hinv2.2.2.2 n h d hd
        · rw [List.mem_singleton] at h
          subst h
          have hdsch := hdepsched d hd
          rw [List.indexOf_append_of_mem hdsch, List.indexOf_append_of_not_mem hnots]
          have hlt := List.indexOf_lt_length.2 hdsch
          simp only [List.indexOf_cons_self]
          omega
      · -- visited grows
        exact fun x hx => hvis2 x (List.mem_cons_of_mem _ hx)
      · -- schedule decomposition
        rw [he2', List.append_assoc]
      · -- the new suffix was unvisited
        intro x hx
        rcases List.mem_append.1 hx with h | h
        · exact ⟨fun hxv => (hp2' x h).1 (List.mem_cons_of_mem _ hxv), (hp2' x h).2⟩
        · rw [List.mem_singleton] at h
          subst h
          exact ⟨hv, hvis2 x (List.mem_cons_self _ _)⟩
      · -- the visited mark
        exact hvis2 name (List.mem_cons_self _ _)
      · -- scheduled
        exact Or.inl (List.mem_append.2 (Or.inr (List.mem_singleton.2 rfl)))
      · -- newly visited nodes are scheduled
        intro x hx hnx
        by_cases hxn : x = name
        · subst hxn
          exact List.mem_append.2 (Or.inr (List.mem_singleton.2 rfl))
        · have hx1 : x ∉ (⟨name :: st.visited, st.schedule⟩ : ScheduleState).visited := by
            intro hmem
            rcases List.mem_cons.1 hmem with h | h
            · exact hxn h
            · exact hnx h
          exact List.mem_append.2 (Or.inl (hnew2 x hx hx1))

theorem rank_lt_bound (rank : String → Nat) :
    ∀ (l : List String), ∀ d ∈ l, rank d < (l.map rank).foldr Nat.max 0 + 1 := by
  intro l
  induction l with
  | nil => intro d hd; cases hd
  | cons x xs ih =>
    intro d hd
    rcases List.mem_cons.1 hd with rfl | h
    · have h1 : rank d ≤ Nat.max (rank d) ((xs.map rank).foldr Nat.max 0) := Nat.le_max_left _ _
      simp only [List.map, List.foldr]
      omega
    · have h2 := ih d h
      have h3 : (xs.map rank).foldr Nat.max 0 ≤ Nat.max (rank x) ((xs.map rank).foldr Nat.max 0) :=
        Nat.le_max_right _ _
      simp only [List.map, List.foldr]
      omega

theorem compute_schedule_eq_foldVisit (a : TreeAnalysis) :
    compute_schedule a = (foldVisit (depsOf a.links) (a.nodes.length + a.links.length + 1)
      (scheduleStart a) ⟨[], []⟩).schedule := rfl

theorem compute_schedule_nodup_and_order (a : TreeAnalysis) (rank : String → Nat)
    (hrank : ∀ l ∈ a.links, rank l.from_node < rank l.to_node) :
    (compute_schedule a).Nodup ∧
    ∀ n ∈ compute_schedule a, ∀ d ∈ depsOf a.links n,
      (compute_schedule a).indexOf d < (compute_schedule a).indexOf n := by
  have hdeps : ∀ n d, d ∈ depsOf a.links n → d ∈ analysisUniv a := by
    intro n d hd
    rcases List.mem_map.1 hd with ⟨l, hl, rfl⟩
    have hl2 := List.mem_filter.1 hl
    exact List.mem_append.2 (Or.inr (List.mem_map.2 ⟨l, hl2.1, rfl⟩))
  have hrank2 : ∀ n d, d ∈ depsOf a.links n → rank d < rank n := by
    intro n d hd
    rcases List.mem_map.1 hd with ⟨l, hl, rfl⟩
    have hl2 := List.mem_filter.1 hl
    have heq : l.to_node = n := by simpa using hl2.2
    have hlt := hrank l hl2.1
    rw [heq] at hlt
    exact hlt
  have hinv0 : SchedInv (depsOf a.links) ⟨[], []⟩ := ⟨List.nodup_nil, by simp, by simp, by simp⟩
  have hcount0 : unvisitedCount (analysisUniv a) ⟨[], []⟩ < a.nodes.length + a.links.length + 1 := by
    have h1 : unvisitedCount (analysisUniv a) ⟨[], []⟩ = (analysisUniv a).length := by
      unfold unvisitedCount
      refine List.countP_eq_length.2 ?_
      intro x _
      simp
    have h2 : (analysisUniv a).length = a.nodes.length + a.links.length := by
      simp [analysisUniv]
    omega
  have hstart : ∀ n ∈ scheduleStart a, n ∈ analysisUniv a := by
    intro n hn
    unfold scheduleStart at hn
    by_cases hout : ((a.nodes.filter (fun n => n.bl_idname == "ShaderNodeOutputMaterial")).map (fun n => n.name)).isEmpty
    · simp only [hout, if_true] at hn
      exact List.mem_append.2 (Or.inl hn)
    · simp only [hout, if_false] at hn
      rcases List.mem_map.1 hn with ⟨nd, hnd, rfl⟩
      exact List.mem_append.2 (Or.inl (List.mem_map.2 ⟨nd, (List.mem_filter.1 hnd).1, rfl⟩))
  have hbnd := rank_lt_bound rank (scheduleStart a)
  have hgray0 : ∀ g, Gray (⟨[], []⟩ : ScheduleState) g
      → ((scheduleStart a).map rank).foldr Nat.max 0 + 1 ≤ rank g := by
    rintro g ⟨hgv, _⟩
    cases hgv
  obtain ⟨hinvF, _, _, _⟩ :=
    foldVisit_spec (depsOf a.links) (analysisUniv a) rank (a.nodes.length + a.links.length + 1)
      (visitNode_spec (depsOf a.links) (analysisUniv a) rank hdeps hrank2
        (a.nodes.length + a.links.length + 1))
      (scheduleStart a) ⟨[], []⟩ (((scheduleStart a).map rank).foldr Nat.max 0 + 1)
      hinv0 hcount0 (fun d hd => ⟨hstart d hd, hbnd d hd⟩) hgray0
  rw [compute_schedule_eq_foldVisit]
  exact ⟨hinvF.1, fun n hn d hd => hinvF.2.2.2 n hn d hd⟩

/-- C1: for every analyzed graph whose flattened links form an acyclic
dependency relation (witnessed by a rank function increasing along
every link), the schedule computed by GraphEngine.compute_schedule
contains each node at most once, and every scheduled node appears
strictly after every one of its upstream dependencies (the source
nodes of links into it) that appears in the schedule. -/
theorem C1_compute_schedule_topological (a : TreeAnalysis) (rank : String → Nat)
    (hrank : ∀ l ∈ a.links, rank l.from_node < rank l.to_node) :
    (compute_schedule a).Nodup ∧
    ∀ n ∈ compute_schedule a, ∀ l ∈ a.links, l.to_node = n →
      l.from_node ∈ compute_schedule a →
      (compute_schedule a).indexOf l.from_node < (compute_schedule a).indexOf n := by
  obtain ⟨hnd, hord⟩ := compute_schedule_nodup_and_order a rank hrank
  refine ⟨hnd, ?_⟩
  intro n hn l hl hto _
  refine hord n hn l.from_node ?_
  exact List.mem_map.2 ⟨l, List.mem_filter.2 ⟨hl, by simp [hto]⟩, rfl⟩

/-- Witness instantiating C1 on the concrete example analysis with its
explicit rank function. -/
theorem C1_compute_schedule_topological_witness :
    (∀ l ∈ c1ExampleAnalysis.links, c1ExampleRank l.from_node < c1ExampleRank l.to_node) ∧
    ((compute_schedule c1ExampleAnalysis).Nodup ∧
      ∀ n ∈ compute_schedule c1ExampleAnalysis, ∀ l ∈ c1ExampleAnalysis.links, l.to_node = n →
        l.from_node ∈ compute_schedule c1ExampleAnalysis →
        (compute_schedule c1ExampleAnalysis).indexOf l.from_node
          < (compute_schedule c1ExampleAnalysis).indexOf n) :=
  ⟨by decide, C1_compute_schedule_topological c1ExampleAnalysis c1ExampleRank (by decide)⟩

theorem orO_isSome {α : Type} (a b : Option α) : (orO a b).isSome = (a.isSome || b.isSome) := by
  cases a <;> simp [orO]

theorem findSome?_const_none {α β : Type} (l : List α) :
    l.findSome? (fun _ => (none : Option β)) = none :=
  List.findSome?_eq_none_iff.2 (fun _ _ => rfl)

/-- C10: resolve_output_socket returns none exactly when the target
node has no output socket; with at least one output every resolution
succeeds, because the named strategies fall back to the first output,
so an output-side link drop can occur only for nodes without
outputs. -/
theorem C10_resolve_output_socket_total (type_map : String → List String)
    (cycles_socket_name : String) (octane_node : OctNode) (socket_identifier : String) :
    (resolve_output_socket type_map cycles_socket_name octane_node socket_identifier).isSome
      ↔ octane_node.outputs ≠ [] := by
  constructor
  · intro hsome heq
    have hnone : resolve_output_socket type_map cycles_socket_name octane_node socket_identifier = none := by
      simp [resolve_output_socket, heq, socketGet, find_socket_case_insensitive,
        find_socket_substring, orO, findSome?_const_none]
    rw [hnone] at hsome
    simp at hsome
  · intro hne
    rcases houts : octane_node.outputs with _ | ⟨x, xs⟩
    · exact absurd houts hne
    · have h6 : octane_node.outputs.head? = some x := by rw [houts]; rfl
      simp [resolve_output_socket, orO_isSome, h6]

/-- C7: when the target node has no socket exactly matching a registry
candidate, an identifier-keyed candidate, or the literal source socket
name, but some socket matches a candidate or the source name after
lowercasing, resolve_input_socket succeeds with such a case-insensitive
match (strategies 4 and 5), independently of the positional socket
index, so the positional fallback (strategy 7) is never used. -/
theorem C7_resolve_input_case_insensitive (type_map : String → List String)
    (cycles_socket_name : String) (octane_node : OctNode) (socket_identifier : String)
    (h1 : ∀ c ∈ type_map cycles_socket_name, socketGet octane_node.inputs c = none)
    (h2 : ∀ c ∈ type_map socket_identifier, socketGet octane_node.inputs c = none)
    (h3 : socketGet octane_node.inputs cycles_socket_name = none)
    (h4 : ∃ s ∈ octane_node.inputs,
      (∃ c ∈ type_map cycles_socket_name, strLower s.name = strLower c)
        ∨ strLower s.name = strLower cycles_socket_name) :
    ∃ s, (∀ idx : Int,
        resolve_input_socket type_map cycles_socket_name octane_node socket_identifier idx = some s) ∧
      s ∈ octane_node.inputs ∧
      ((∃ c ∈ type_map cycles_socket_name, strLower s.name = strLower c)
        ∨ strLower s.name = strLower cycles_socket_name) := by
  have hs1 : (type_map cycles_socket_name).findSome?
      (fun c => socketGet octane_node.inputs c) = none :=
    List.findSome?_eq_none_iff.2 h1
  have hs2 : ∀ b : Prop, ∀ inst : Decidable b,
      (if b then (type_map socket_identifier).findSome?
        (fun c => socketGet octane_node.inputs c) else none) = none := by
    intro b inst
    split
    · exact List.findSome?_eq_none_iff.2 h2
    · rfl
  rcases hs4 : (type_map cycles_socket_name).findSome?
      (fun c => find_socket_case_insensitive octane_node.inputs c) with _ | s
  · -- strategy 4 found nothing: the hypothesis match must be on the literal name
    have hnc : ∀ c ∈ type_map cycles_socket_name,
        find_socket_case_insensitive octane_node.inputs c = none :=
      List.findSome?_eq_none_iff.1 hs4
    rcases h4 with ⟨s0, hs0, hmatch | hmatch⟩
    · exfalso
      rcases hmatch with ⟨c, hc, hceq⟩
      have := hnc c hc
      rw [find_socket_case_insensitive, List.find?_eq_none] at this
      exact this s0 hs0 (by simp [hceq])
    · rcases hfind : octane_node.inputs.find?
          (fun s => strLower s.name == strLower cycles_socket_name) with _ | s
      · exfalso
        rw [List.find?_eq_none] at hfind
        exact hfind s0 hs0 (by simp [hmatch])
      · have hs4u : (type_map cycles_socket_name).findSome?
            (fun c => List.find? (fun s => strLower s.name == strLower c) octane_node.inputs) = none := hs4
        refine ⟨s, ?_, List.mem_of_find?_eq_some hfind, Or.inr ?_⟩
        · intro idx
          simp [resolve_input_socket, hs1, hs2, h3, hs4, hs4u, orO,
            find_socket_case_insensitive, hfind]
        · have := List.find?_some hfind
          simpa using this
  · -- strategy 4 found a socket
    rcases List.exists_of_findSome?_eq_some hs4 with ⟨c, hc, hcs⟩
    rw [find_socket_case_insensitive] at hcs
    refine ⟨s, ?_, List.mem_of_find?_eq_some hcs, Or.inl ⟨c, hc, ?_⟩⟩
    · intro idx
      simp [resolve_input_socket, hs1, hs2, h3, hs4, orO]
    · have := List.find?_some hcs
      simpa using this


/-- Witness instantiating C7: the example node names its socket diffuse
in lowercase while the registry candidate and the source name use
capitalised forms, so only the case-insensitive strategies hit. -/
theorem C7_resolve_input_case_insensitive_witness :
    ((∀ c ∈ c7ExampleMap "Base Color", socketGet c7ExampleNode.inputs c = none) ∧
      (∃ s ∈ c7ExampleNode.inputs,
        (∃ c ∈ c7ExampleMap "Base Color", strLower s.name = strLower c)
          ∨ strLower s.name = strLower "Base Color")) ∧
    (∃ s, (∀ idx : Int,
        resolve_input_socket c7ExampleMap "Base Color" c7ExampleNode "BC_id" idx = some s) ∧
      s ∈ c7ExampleNode.inputs ∧
      ((∃ c ∈ c7ExampleMap "Base Color", strLower s.name = strLower c)
        ∨ strLower s.name = strLower "Base Color")) :=
  ⟨⟨by decide, by decide⟩,
    C7_resolve_input_case_insensitive c7ExampleMap "Base Color" c7ExampleNode "BC_id"
      (by decide) (by decide) (by decide) (by decide)⟩

/-- C5 (code defect): a principled node whose emission color is black
but whose emission strength is five leaves the emission pattern flag
unset, because analyze_tree binds the Emission Strength socket to a
local that is never used and keys the flag on the color alone. -/
theorem C5_emission_strength_ignored :
    (analyze_tree c5ExampleTree).has_emission = false := by decide

/-- C3: for a principled material with transmission weight 0.6 (three
fifths), the analyzer raises the glass pattern flag and records the
weight, and the transfer writes black into the base color slot, routes
the original base color into the transmission tint slot, and raises
the fake shadows flag; with weight 0.4 (two fifths) the glass flag and
the fake shadows flag stay unset and the base color slot receives the
original base color unchanged. -/
theorem C3_transmission_threshold (r g b a : ℚ) :
    (analyze_tree (c3Tree (Val.color r g b a) (mkRat 3 5))).has_glass = true ∧
    (analyze_tree (c3Tree (Val.color r g b a) (mkRat 3 5))).transmission_weight = mkRat 3 5 ∧
    inputDefault (transfer_principled (c3Info (Val.color r g b a) (mkRat 3 5)) octUniversalNode)
      "Albedo color" = some (Val.color 0 0 0 1) ∧
    inputDefault (transfer_principled (c3Info (Val.color r g b a) (mkRat 3 5)) octUniversalNode)
      "Transmission color" = some (Val.color r g b a) ∧
    assocLookup (transfer_principled (c3Info (Val.color r g b a) (mkRat 3 5)) octUniversalNode).attrs
      "fake_shadows" = some (Val.boolean true) ∧
    (analyze_tree (c3Tree (Val.color r g b a) (mkRat 2 5))).has_glass = false ∧
    inputDefault (transfer_principled (c3Info (Val.color r g b a) (mkRat 2 5)) octUniversalNode)
      "Albedo color" = some (Val.color r g b a) ∧
    assocLookup (transfer_principled (c3Info (Val.color r g b a) (mkRat 2 5)) octUniversalNode).attrs
      "fake_shadows" = none := by
  refine ⟨?_, ?_, ?_, ?_, ?_, ?_, ?_, ?_⟩ <;> rfl

theorem linksInto_append_no_hit (L M : List TLink) (sockName : String)
    (hL : ∀ l ∈ L, l.to_socket.socket ≠ sockName) :
    linksInto (L ++ M) "OctMix" sockName = linksInto M "OctMix" sockName := by
  unfold linksInto
  rw [List.filter_append]
  have hnil : L.filter (fun l => l.to_socket.node == "OctMix" && l.to_socket.socket == sockName) = [] := by
    rw [List.filter_eq_nil_iff]
    intro l hl
    simp [hL l hl]
  rw [hnil, List.nil_append]

theorem filter_keep_no_hit (L : List TLink) (sockName : String)
    (hL : ∀ l ∈ L, l.to_socket.socket ≠ sockName) :
    L.filter (fun l => !(l.to_socket.node == "OctMix" && l.to_socket.socket == sockName)) = L := by
  rw [List.filter_eq_self]
  intro l hl
  simp [hL l hl]

/-- C8: on a lowered mix material with producer A feeding material slot
one and producer B feeding slot two, the mix slot post processor swaps
the two connections; when only slot one is fed, the connection moves to
slot two.  Other links of the tree, which feed neither material slot,
are untouched. -/
theorem C8_mix_slot_swap (L : List TLink) (pA pB : SockRef)
    (hL : ∀ l ∈ L, l.to_socket.socket ≠ "Material1" ∧ l.to_socket.socket ≠ "Material2") :
    fix_mix_shader_links c8Analysis c8NodeMap
        (L ++ [{ from_socket := pA, to_socket := { node := "OctMix", socket := "Material1" } },
               { from_socket := pB, to_socket := { node := "OctMix", socket := "Material2" } }])
      = L ++ [{ from_socket := pA, to_socket := { node := "OctMix", socket := "Material2" } },
              { from_socket := pB, to_socket := { node := "OctMix", socket := "Material1" } }]
    ∧ fix_mix_shader_links c8Analysis c8NodeMap
        (L ++ [{ from_socket := pA, to_socket := { node := "OctMix", socket := "Material1" } }])
      = L ++ [{ from_socket := pA, to_socket := { node := "OctMix", socket := "Material2" } }] := by
  have h1 := fun l hl => (hL l hl).1
  have h2 := fun l hl => (hL l hl).2
  have hf1 : List.find? (fun l => l.to_socket.node == "OctMix" && l.to_socket.socket == "Material1") L = none := by
    rw [List.find?_eq_none]
    intro l hl
    simp [h1 l hl]
  have hf2 : List.find? (fun l => l.to_socket.node == "OctMix" && l.to_socket.socket == "Material2") L = none := by
    rw [List.find?_eq_none]
    intro l hl
    simp [h2 l hl]
  have hkeep : L.filter (fun a =>
      (!(a.to_socket.node == "OctMix") || !(a.to_socket.socket == "Material2")) &&
      (!(a.to_socket.node == "OctMix") || !(a.to_socket.socket == "Material1"))) = L := by
    rw [List.filter_eq_self]
    intro l hl
    simp [h1 l hl, h2 l hl]
  constructor
  · simp only [fix_mix_shader_links, c8Analysis, c8NodeMap, octMixNode, osock, List.foldl]
    simp [linksInto_append_no_hit _ _ _ h1, linksInto_append_no_hit _ _ _ h2,
      linksInto, List.filter_append, filter_keep_no_hit _ _ h1, filter_keep_no_hit _ _ h2,
      socketGet, List.append_assoc, hf1, hf2, hkeep, Option.or]
  · simp only [fix_mix_shader_links, c8Analysis, c8NodeMap, octMixNode, osock, List.foldl]
    simp [linksInto_append_no_hit _ _ _ h1, linksInto_append_no_hit _ _ _ h2,
      linksInto, List.filter_append, filter_keep_no_hit _ _ h1, filter_keep_no_hit _ _ h2,
      socketGet, List.append_assoc, hf1, hf2, hkeep, Option.or]

/-- Witness instantiating C8 with concrete producers and one unrelated
link feeding the Amount slot. -/
theorem C8_mix_slot_swap_witness :
    (∀ l ∈ [({ from_socket := { node := "Tex", socket := "OutTex" },
               to_socket := { node := "OctMix", socket := "Amount" } } : TLink)],
      l.to_socket.socket ≠ "Material1" ∧ l.to_socket.socket ≠ "Material2") ∧
    (fix_mix_shader_links c8Analysis c8NodeMap
        ([{ from_socket := { node := "Tex", socket := "OutTex" },
            to_socket := { node := "OctMix", socket := "Amount" } }] ++
         [{ from_socket := { node := "MatA", socket := "OutMat" },
            to_socket := { node := "OctMix", socket := "Material1" } },
          { from_socket := { node := "MatB", socket := "OutMat" },
            to_socket := { node := "OctMix", socket := "Material2" } }])
      = [{ from_socket := { node := "Tex", socket := "OutTex" },
           to_socket := { node := "OctMix", socket := "Amount" } }] ++
        [{ from_socket := { node := "MatA", socket := "OutMat" },
           to_socket := { node := "OctMix", socket := "Material2" } },
         { from_socket := { node := "MatB", socket := "OutMat" },
           to_socket := { node := "OctMix", socket := "Material1" } }]
    ∧ fix_mix_shader_links c8Analysis c8NodeMap
        ([{ from_socket := { node := "Tex", socket := "OutTex" },
            to_socket := { node := "OctMix", socket := "Amount" } }] ++
         [{ from_socket := { node := "MatA", socket := "OutMat" },
            to_socket := { node := "OctMix", socket := "Material1" } }])
      = [{ from_socket := { node := "Tex", socket := "OutTex" },
           to_socket := { node := "OctMix", socket := "Amount" } }] ++
        [{ from_socket := { node := "MatA", socket := "OutMat" },
           to_socket := { node := "OctMix", socket := "Material2" } }]) :=
  ⟨by decide,
    C8_mix_slot_swap
      [{ from_socket := { node := "Tex", socket := "OutTex" },
         to_socket := { node := "OctMix", socket := "Amount" } }]
      { node := "MatA", socket := "OutMat" }
      { node := "MatB", socket := "OutMat" }
      (by decide)⟩

/-- C6 (code defect): the apply_scale_correction binding that
convert_material calls at line 817 is the later stub definition of
conversion_engine.py line 646, whose body is pass, so with object
scale two on every axis the Scale input of the lowered Mapping node
stays at one instead of being multiplied to two; the earlier full
definition of line 547, shadowed and dead, would have scaled it. -/
theorem C6_scale_correction_is_noop :
    apply_scale_correction (some c6Obj) c6NodeMap c6Analysis = c6NodeMap ∧
    ((apply_scale_correction (some c6Obj) c6NodeMap c6Analysis).find? (fun p => p.1 == "Map")).map
      (fun p => inputDefault p.2 "Scale") = some (some (Val.vec 1 1 1)) ∧
    ((apply_scale_correction_v547 (some c6Obj) c6NodeMap c6Analysis).find? (fun p => p.1 == "Map")).map
      (fun p => inputDefault p.2 "Scale") = some (some (Val.vec 2 2 2)) := by
  refine ⟨rfl, by decide, by decide⟩

/-- C2 (code defect): convert_object_materials has no try or except at
the material boundary: when converting the first material raises, the
batch aborts exceptionally instead of reporting the material as
skipped and converting the remaining one. -/
theorem C2_batch_aborts_on_error :
    convert_object_materials
      (fun m : Nat => if m = 0 then Except.error "boom" else Except.ok (some (m + 10)))
      [some 0, some 1] = Except.error "boom" := by
  rfl

/-- C4 (code defect): converting a material with a node tree raises
before anything is registered in the cache, because convert_material
constructs GraphEngine with the keyword argument group_converter_cb
that GraphEngine.__init__ does not accept; hence neither the first nor
the second conversion of the same material returns a handle, and the
cache never short-circuits anything. -/
theorem C4_convert_twice_returns_no_handle (w : ConvWorld) (mat : SrcMat)
    (htree : mat.has_tree = true)
    (hmiss : w.cache.find? (fun p => p.1 == mat.name) = none) :
    (∀ r, (convert_material w mat).1 ≠ Except.ok r) ∧
    (∀ r, (convert_material (convert_material w mat).2 mat).1 ≠ Except.ok r) := by
  constructor
  · intro r
    simp [convert_material, htree, hmiss]
  · intro r
    simp [convert_material, htree, hmiss]

/-- Witness instantiating C4 on an empty world and a material with an
empty tree. -/
theorem C4_convert_twice_returns_no_handle_witness :
    (c4ExampleMat.has_tree = true ∧
      c4ExampleWorld.cache.find? (fun p => p.1 == c4ExampleMat.name) = none) ∧
    ((∀ r, (convert_material c4ExampleWorld c4ExampleMat).1 ≠ Except.ok r) ∧
      (∀ r, (convert_material (convert_material c4ExampleWorld c4ExampleMat).2 c4ExampleMat).1
        ≠ Except.ok r)) :=
  ⟨⟨by decide, by decide⟩,
    C4_convert_twice_returns_no_handle c4ExampleWorld c4ExampleMat (by decide) (by decide)⟩

/-- C9: convert_material never mutates the source material tree: the
analysis is a pure function of the source tree, the copy allocates a
fresh handle, and every mutating phase of the pipeline is applied at
the handle of the copy, so the tree stored at the source handle is
unchanged whatever the phases do. -/
theorem C9_convert_material_preserves_source {τ : Type}
    (analyze : τ → TreeAnalysis) (clearStep : τ → τ)
    (createStep transferStep linkStep fallbackStep mixStep alphaStep emStep emInsStep volStep gammaStep scaleStep : TreeAnalysis → τ → τ)
    (driverStep : τ → TreeAnalysis → τ → τ)
    (h : Heap τ) (srcId : Nat) (hsrc : srcId < h.nextId) :
    ((convert_material_tree_effects analyze clearStep createStep transferStep linkStep
        fallbackStep mixStep alphaStep emStep emInsStep volStep gammaStep scaleStep
        driverStep h srcId).1).tree srcId = h.tree srcId := by
  have hne : srcId ≠ h.nextId := Nat.ne_of_lt hsrc
  simp [convert_material_tree_effects, heapWrite, hne]

/-- Witness instantiating C9 on a one-tree heap with mutating phases. -/
theorem C9_convert_material_preserves_source_witness :
    (0 < (Heap.mk (fun _ => (7 : Nat)) 1).nextId) ∧
    ((convert_material_tree_effects (fun _ => {}) (fun t => t + 1)
        (fun _ t => t + 1) (fun _ t => t + 1) (fun _ t => t + 1) (fun _ t => t + 1)
        (fun _ t => t + 1) (fun _ t => t + 1) (fun _ t => t + 1) (fun _ t => t + 1)
        (fun _ t => t + 1) (fun _ t => t + 1) (fun _ t => t + 1)
        (fun _ _ t => t + 1) (Heap.mk (fun _ => (7 : Nat)) 1) 0).1).tree 0
      = (Heap.mk (fun _ => (7 : Nat)) 1).tree 0 :=
  ⟨by decide,
    C9_convert_material_preserves_source (fun _ => {}) (fun t => t + 1)
      (fun _ t => t + 1) (fun _ t => t + 1) (fun _ t => t + 1) (fun _ t => t + 1)
      (fun _ t => t + 1) (fun _ t => t + 1) (fun _ t => t + 1) (fun _ t => t + 1)
      (fun _ t => t + 1) (fun _ t => t + 1) (fun _ t => t + 1)
      (fun _ _ t => t + 1) (Heap.mk (fun _ => (7 : Nat)) 1) 0 (by decide)⟩
